import Mathlib

/-! Shallow embedding of `monome_serial_device.py` from the
neotrellis-monome repository (a CircuitPython port of a monome-protocol
grid/arc controller), together with theorems about its behaviour.

Modelling conventions:

* Bytes and Python integers are `Nat` (all values handled by the code are
  non-negative); Python bit operations translate to `>>>` and `&&&`.
* The serial transport is modelled at the interface the specification
  gives for the external collaborator (`read(n) -> bytes`,
  `write(bytes)`): the pending input is a `List Nat` of byte values,
  reading consumes from its front, and writing appends byte values to an
  output list.  A single-byte read yields the byte value as the integer
  the surrounding code uses.
* Fallible Python statements are modelled in `Except PyError`:
  `int(self._cols / self._rows)` raises `ZeroDivisionError` when
  `_rows = 0`; sequence unpacking with the wrong arity raises
  `ValueError`; list item assignment out of range raises `IndexError`;
  a read for which the input holds fewer bytes than requested blocks
  forever in the source and is modelled as the `blocked` outcome.
* `int(cols / rows)` (float true division then truncation) equals
  `cols / rows` on `Nat` for all magnitudes the device can hold, since
  the float quotient of such operands is exact enough that truncation
  agrees with floor division; it is modelled as `Nat` division guarded
  by the zero check.
* The source class `MonomeSerialDevice` inherits from
  `MonomeEventQueue`; the embedding flattens the two into a single
  structure whose fields are the union of both classes' instance
  attributes (plus the class attribute `vari_mono_thresh`, initialised
  to its class-level value 0 and otherwise never written by the code).
-/

/-- The Python exceptions (and the blocking-read outcome) that the
embedded code can produce. -/
inductive PyError where
  | zeroDivision
  | valueError
  | indexError
  | blocked
  deriving DecidableEq

/-- `MonomeGridEvent` from the source: one grid key edge. -/
structure MonomeGridEvent where
  x : Nat
  y : Nat
  pressed : Bool
  deriving DecidableEq

/-- The two arc event classes (`MonomeArcTurnEvent`,
`MonomeArcPressEvent`) that share the single arc queue, as a tagged
union. -/
inductive MonomeArcEvent where
  | turn (index : Nat) (delta : Nat)
  | press (index : Nat) (pressed : Bool)
  deriving DecidableEq

/-- Instance state of `MonomeSerialDevice` (with its superclass
`MonomeEventQueue` flattened in: the two queues are the last two
fields). -/
structure MonomeSerialDevice where
  active : Bool
  is_monome : Bool
  is_grid : Bool
  rows : Nat
  cols : Nat
  encoders : Nat
  leds : List (List Nat)
  device_id : List Nat
  brightness : Nat
  vari_mono_thresh : Nat
  arc_dirty : Bool
  grid_dirty : Bool
  grid_events : List MonomeGridEvent
  arc_events : List MonomeArcEvent
  deriving DecidableEq

/-- `Serial.read(data)`: one byte from the front of the input (the code
uses the result as an integer byte value); blocks when no byte is
available. -/
def readByte : List Nat → Except PyError (Nat × List Nat)
  | [] => .error .blocked
  | b :: r => .ok (b, r)

/-- `Serial.read(data, n)`: the next `n` bytes of the input; blocks when
fewer are available. -/
def readBytes : Nat → List Nat → Except PyError (List Nat × List Nat)
  | 0, l => .ok ([], l)
  | _ + 1, [] => .error .blocked
  | n + 1, b :: l =>
    match readBytes n l with
    | .ok (bs, r) => .ok (b :: bs, r)
    | .error e => .error e

/-- Python sequence unpacking `[a, b] = bs`: `ValueError` unless `bs`
has exactly two elements. -/
def unpack2 : List Nat → Except PyError (Nat × Nat)
  | [a, b] => .ok (a, b)
  | _ => .error .valueError

/-- Python sequence unpacking `[a, b, c] = bs`. -/
def unpack3 : List Nat → Except PyError (Nat × Nat × Nat)
  | [a, b, c] => .ok (a, b, c)
  | _ => .error .valueError

/-- Python sequence unpacking `[a, b, c, d] = bs`. -/
def unpack4 : List Nat → Except PyError (Nat × Nat × Nat × Nat)
  | [a, b, c, d] => .ok (a, b, c, d)
  | _ => .error .valueError

/-- `int(a / b)` on non-negative Python ints: `ZeroDivisionError` when
`b = 0`, otherwise the truncated quotient. -/
def pyIntDiv (a b : Nat) : Except PyError Nat :=
  if b = 0 then .error .zeroDivision else .ok (a / b)

/-- Python `ll[i][j] = v` on a list of lists: `IndexError` when either
index is out of range, otherwise the updated list of lists. -/
def store2D (ll : List (List Nat)) (i j v : Nat) : Except PyError (List (List Nat)) :=
  if i < ll.length then
    if j < (ll.getD i []).length then
      .ok (ll.set i ((ll.getD i []).set j v))
    else .error .indexError
  else .error .indexError

/-- `self.leds[i][j] = v` lifted to the device state. -/
def ledWrite (s : MonomeSerialDevice) (i j v : Nat) : Except PyError MonomeSerialDevice :=
  match store2D s.leds i j v with
  | .ok L => .ok { s with leds := L }
  | .error e => .error e

/-- `set_grid_led(self, x, y, level)`: `self.leds[y][x] = level`
(source line 114; note the level is stored exactly as passed). -/
def set_grid_led (s : MonomeSerialDevice) (x y level : Nat) : Except PyError MonomeSerialDevice :=
  ledWrite s y x level

/-- `clear_grid_led(self, x, y)`: `self.set_grid_led(x, y, 0)`. -/
def clear_grid_led (s : MonomeSerialDevice) (x y : Nat) : Except PyError MonomeSerialDevice :=
  set_grid_led s x y 0

/-- `set_arc_led(self, ring, led, level)`: `self.leds[ring][led] = level`. -/
def set_arc_led (s : MonomeSerialDevice) (ring led level : Nat) : Except PyError MonomeSerialDevice :=
  ledWrite s ring led level

/-- `set_all_grid_leds(self, value)`: nested loops
`for y in range(self._rows): for x in range(self._cols):
self.leds[y][x] = value`. -/
def set_all_grid_leds (s : MonomeSerialDevice) (value : Nat) : Except PyError MonomeSerialDevice :=
  (List.range s.rows).foldlM (fun t y =>
    (List.range t.cols).foldlM (fun u x => ledWrite u y x value) t) s

/-- `set_all_arc_leds(self, ring, value)`: `for n in range(64):
self.leds[ring][n] = 0` — the passed `value` is never used (source
lines 129-131). -/
def set_all_arc_leds (s : MonomeSerialDevice) (ring value : Nat) : Except PyError MonomeSerialDevice :=
  (List.range 64).foldlM (fun t n => ledWrite t ring n 0) s

/-- `add_grid_event`: put a `MonomeGridEvent` at the back of the grid
queue. -/
def add_grid_event (s : MonomeSerialDevice) (x y : Nat) (pressed : Bool) : MonomeSerialDevice :=
  { s with grid_events := s.grid_events ++ [⟨x, y, pressed⟩] }

/-- `add_arc_turn_event`: put a turn event at the back of the arc
queue. -/
def add_arc_turn_event (s : MonomeSerialDevice) (index delta : Nat) : MonomeSerialDevice :=
  { s with arc_events := s.arc_events ++ [.turn index delta] }

/-- `add_arc_press_event`: put a press event at the back of the arc
queue. -/
def add_arc_press_event (s : MonomeSerialDevice) (index : Nat) (pressed : Bool) : MonomeSerialDevice :=
  { s with arc_events := s.arc_events ++ [.press index pressed] }

/-- `read_grid_event`: `None` when the grid queue is empty, otherwise
pop and return its front entry. -/
def read_grid_event (s : MonomeSerialDevice) : Option MonomeGridEvent × MonomeSerialDevice :=
  match s.grid_events with
  | [] => (none, s)
  | e :: rest => (some e, { s with grid_events := rest })

/-- `read_arc_event`: `None` when the arc queue is empty, otherwise pop
and return its front entry. -/
def read_arc_event (s : MonomeSerialDevice) : Option MonomeArcEvent × MonomeSerialDevice :=
  match s.arc_events with
  | [] => (none, s)
  | e :: rest => (some e, { s with arc_events := rest })

/-- The state of `MonomeSerialDevice.__init__` (source lines 70-92)
just before the `set_all_grid_leds(0)` call of line 86: the field
assignments of lines 80-85 have been made, but the attribute
`self.leds` does not yet exist (it is only assigned, as `[]`, at line
90).  Any access to `self.leds` at this point raises; the
not-yet-assigned attribute is modelled as the empty list, which raises
on exactly the same `(rows, cols)` arguments (the loop body of
`set_all_grid_leds` indexes `self.leds` iff `rows > 0` and
`cols > 0`).  The remaining attributes assigned only later in
`__init__` hold placeholder values here that line 86 never reads. -/
def preInitState (active is_monome is_grid : Bool) (rows cols encoders : Nat) :
    MonomeSerialDevice :=
  { active := active, is_monome := is_monome, is_grid := is_grid,
    rows := rows, cols := cols, encoders := encoders,
    leds := [], device_id := [], brightness := 15, vari_mono_thresh := 0,
    arc_dirty := false, grid_dirty := false, grid_events := [], arc_events := [] }

/-- `MonomeSerialDevice.__init__` continued: the call made at source
line 86 on the state captured by `preInitState`, then the assignments
of lines 87-92. -/
def init (active is_monome is_grid : Bool) (rows cols encoders : Nat) :
    Except PyError MonomeSerialDevice :=
  let s0 := preInitState active is_monome is_grid rows cols encoders
  match set_all_grid_leds s0 0 with
  | .error e => .error e
  | .ok s1 =>
    .ok { s1 with arc_dirty := false, grid_dirty := false,
                  leds := [], device_id := [], brightness := 15 }

/-- `MonomeSerialDevice.as_grid(rows, cols)`:
`cls(True, True, True, rows, cols)` then `_grid_dirty = True`. -/
def as_grid (rows cols : Nat) : Except PyError MonomeSerialDevice :=
  match init true true true rows cols 0 with
  | .ok s => .ok { s with grid_dirty := true }
  | .error e => .error e

/-- The opcode bytes that have a `case` arm in `process_serial`
(everything else falls through the `match` and is ignored). -/
def knownOpcodes : List Nat :=
  [0x00, 0x01, 0x02, 0x03, 0x04, 0x05, 0x06, 0x08, 0x0F,
   0x10, 0x11, 0x12, 0x13, 0x14, 0x15, 0x16, 0x17, 0x18, 0x19, 0x1A, 0x1B, 0x1C,
   0x20, 0x21, 0x50, 0x51, 0x52, 0x80, 0x81, 0x90, 0x91, 0x92, 0x93]

/-- `process_serial(self)` (source lines 139-394), as a function of the
device state and the pending input bytes.  The result is the new state,
the bytes written to the transport, and the input remaining after the
command.  Local initialisations mirror the source: `intensity` starts
at 15 and persists across loop iterations (it is the accumulator
threaded through the packed-nibble loops); `gridX`/`gridY` copy the
configured column/row counts; `num_quads = int(self._cols /
self._rows)` is computed before the opcode byte is read.  Each `case`
arm reproduces the reads, masks, loops and writes of its source arm,
including the `Serial.read(data, 3)` results being unpacked into two
names in the 0x1A/0x1B/0x1C arms. -/
def process_serial (s : MonomeSerialDevice) (input : List Nat) :
    Except PyError (MonomeSerialDevice × List Nat × List Nat) := do
  let gridX := s.cols
  let gridY := s.rows
  let num_quads ← pyIntDiv s.cols s.rows
  let (b, r0) ← readByte input
  if b = 0x00 then
    pure (s, [0x00, 0x01, num_quads, 0x00, 0x02, num_quads], r0)
  else if b = 0x01 then
    pure (s, 0x01 :: (s.device_id ++ List.replicate (32 - s.device_id.length) 0), r0)
  else if b = 0x02 then do
    let (bs, r1) ← readBytes 32 r0
    pure ({ s with device_id := bs }, [], r1)
  else if b = 0x03 then
    pure (s, [0x02, 0x01, 0, 0], r0)
  else if b = 0x04 then do
    let (bs, r1) ← readBytes 3 r0
    let (_gn, _gx, _gy) ← unpack3 bs
    pure (s, [], r1)
  else if b = 0x05 then
    pure (s, [0x03, gridX, gridY], r0)
  else if b = 0x06 then do
    let (bs, r1) ← readBytes 2 r0
    let (_gx, _gy) ← unpack2 bs
    pure (s, [], r1)
  else if b = 0x08 then do
    let (_old, r1) ← readByte r0
    let (_new, r2) ← readByte r1
    pure (s, [], r2)
  else if b = 0x0F then
    pure (s, List.replicate 8 0, r0)
  else if b = 0x10 then do
    let (bs, r1) ← readBytes 2 r0
    let (rx, ry) ← unpack2 bs
    let s1 ← clear_grid_led s rx ry
    pure (s1, [], r1)
  else if b = 0x11 then do
    let (bs, r1) ← readBytes 2 r0
    let (rx, ry) ← unpack2 bs
    let s1 ← set_grid_led s rx ry s.brightness
    pure (s1, [], r1)
  else if b = 0x12 then do
    let s1 ← set_all_grid_leds s 0
    pure (s1, [], r0)
  else if b = 0x13 then do
    let s1 ← set_all_grid_leds s s.brightness
    pure (s1, [], r0)
  else if b = 0x14 then do
    let (bs, r1) ← readBytes 2 r0
    let (rx0, ry0) ← unpack2 bs
    let rx := rx0 &&& 0xF8
    let ry := ry0 &&& 0xF8
    let (s1, r2) ← (List.range 8).foldlM
      (fun (acc : MonomeSerialDevice × List Nat) y => do
        let (t, inp) := acc
        let (ib, inp1) ← readByte inp
        let t1 ← (List.range 8).foldlM (fun u x =>
          if (ib >>> x) &&& 0x01 ≠ 0 then set_grid_led u (rx + x) (ry + y) u.brightness
          else clear_grid_led u (rx + x) (ry + y)) t
        pure (t1, inp1)) (s, r1)
    pure (s1, [], r2)
  else if b = 0x15 then do
    let (bs, r1) ← readBytes 3 r0
    let (rx0, ry, ib) ← unpack3 bs
    let rx := rx0 &&& 0xF8
    let s1 ← (List.range 8).foldlM (fun u x =>
      if (ib >>> x) &&& 0x1 ≠ 0 then set_grid_led u (rx + x) ry 15
      else clear_grid_led u (rx + x) ry) s
    pure (s1, [], r1)
  else if b = 0x16 then do
    let (bs, r1) ← readBytes 3 r0
    let (rx, ry0, ib) ← unpack3 bs
    let ry := ry0 &&& 0xF8
    let s1 ← (List.range 8).foldlM (fun u y =>
      if (ib >>> y) &&& 0x1 ≠ 0 then set_grid_led u rx (ry + y) 15
      else clear_grid_led u rx (ry + y)) s
    pure (s1, [], r1)
  else if b = 0x17 then do
    let (ib, r1) ← readByte r0
    pure ({ s with brightness := ib }, [], r1)
  else if b = 0x18 then do
    let (bs, r1) ← readBytes 3 r0
    let (rx, ry, ib) ← unpack3 bs
    let s1 ← set_grid_led s rx ry ib
    pure (s1, [], r1)
  else if b = 0x19 then do
    let (ib, r1) ← readByte r0
    let s1 ← set_all_grid_leds s ib
    pure (s1, [], r1)
  else if b = 0x1A then do
    let (bs, r1) ← readBytes 3 r0
    let (rx0, ry0) ← unpack2 bs
    let rx := rx0 &&& 0xF8
    let ry := ry0 &&& 0xF8
    let (s1, _, _, r2) ← (List.range 8).foldlM
      (fun (acc : MonomeSerialDevice × Nat × Nat × List Nat) y =>
        (List.range 8).foldlM
          (fun (acc2 : MonomeSerialDevice × Nat × Nat × List Nat) x => do
            let (t, intensity, z, inp) := acc2
            if z % 2 = 0 then do
              let (ib, inp1) ← readByte inp
              let v := (ib >>> 4) &&& 0x0F
              let t1 ← set_grid_led t (rx + x) (ry + y)
                (if v > t.vari_mono_thresh then v else 0)
              pure (t1, ib, z + 1, inp1)
            else do
              let v := intensity &&& 0x0F
              let t1 ← set_grid_led t (rx + x) (ry + y)
                (if v > t.vari_mono_thresh then v else 0)
              pure (t1, intensity, z + 1, inp)) acc)
      (s, 15, 0, r1)
    pure (s1, [], r2)
  else if b = 0x1B then do
    let (bs, r1) ← readBytes 3 r0
    let (rx0, ry0) ← unpack2 bs
    let rx := rx0 &&& 0xF8
    let ry := ry0 &&& 0xF8
    let (s1, _, r2) ← (List.range 8).foldlM
      (fun (acc : MonomeSerialDevice × Nat × List Nat) x => do
        let (t, intensity, inp) := acc
        if x % 2 = 0 then do
          let (ib, inp1) ← readByte inp
          let v := (ib >>> 4) &&& 0x0F
          let t1 ← set_grid_led t (rx + x) ry (if v > t.vari_mono_thresh then v else 0)
          pure (t1, ib, inp1)
        else do
          let v := intensity &&& 0x0F
          let t1 ← set_grid_led t (rx + x) ry (if v > t.vari_mono_thresh then v else 0)
          pure (t1, intensity, inp)) (s, 15, r1)
    pure (s1, [], r2)
  else if b = 0x1C then do
    let (bs, r1) ← readBytes 3 r0
    let (rx0, ry0) ← unpack2 bs
    let rx := rx0 &&& 0xF8
    let ry := ry0 &&& 0xF8
    let (s1, _, r2) ← (List.range 8).foldlM
      (fun (acc : MonomeSerialDevice × Nat × List Nat) y => do
        let (t, intensity, inp) := acc
        if y % 2 = 0 then do
          let (ib, inp1) ← readByte inp
          let v := (ib >>> 4) &&& 0x0F
          let t1 ← set_grid_led t rx (ry + y) (if v > t.vari_mono_thresh then v else 0)
          pure (t1, ib, inp1)
        else do
          let v := intensity &&& 0x0F
          let t1 ← set_grid_led t rx (ry + y) (if v > t.vari_mono_thresh then v else 0)
          pure (t1, intensity, inp)) (s, 15, r1)
    pure (s1, [], r2)
  else if b = 0x20 then do
    let (bs, r1) ← readBytes 2 r0
    let (gx, gy) ← unpack2 bs
    pure (add_grid_event s gx gy false, [], r1)
  else if b = 0x21 then do
    let (bs, r1) ← readBytes 2 r0
    let (gx, gy) ← unpack2 bs
    pure (add_grid_event s gx gy true, [], r1)
  else if b = 0x50 then do
    let (bs, r1) ← readBytes 2 r0
    let (idx, dlt) ← unpack2 bs
    pure (add_arc_turn_event s idx dlt, [], r1)
  else if b = 0x51 then do
    let (idx, r1) ← readByte r0
    pure (add_arc_press_event s idx false, [], r1)
  else if b = 0x52 then do
    let (idx, r1) ← readByte r0
    pure (add_arc_press_event s idx true, [], r1)
  else if b = 0x80 then
    pure (s, [], r0)
  else if b = 0x81 then
    pure (s, [], r0)
  else if b = 0x90 then do
    let (bs, r1) ← readBytes 3 r0
    let (rn, rx, ra) ← unpack3 bs
    let s1 ← set_arc_led s rn rx ra
    pure (s1, [], r1)
  else if b = 0x91 then do
    let (bs, r1) ← readBytes 2 r0
    let (rn, ra) ← unpack2 bs
    let s1 ← set_all_arc_leds s rn ra
    pure (s1, [], r1)
  else if b = 0x92 then do
    let (rn, r1) ← readByte r0
    let (s1, _, r2) ← (List.range 64).foldlM
      (fun (acc : MonomeSerialDevice × Nat × List Nat) y => do
        let (t, intensity, inp) := acc
        if y % 2 = 0 then do
          let (ib, inp1) ← readByte inp
          let v := (ib >>> 4) &&& 0x0F
          let t1 ← set_arc_led t rn y (if v > t.vari_mono_thresh then v else 0)
          pure (t1, ib, inp1)
        else do
          let v := intensity &&& 0x0F
          let t1 ← set_arc_led t rn y (if v > t.vari_mono_thresh then v else 0)
          pure (t1, intensity, inp)) (s, 15, r1)
    pure (s1, [], r2)
  else if b = 0x93 then do
    let (bs, r1) ← readBytes 4 r0
    let (rn, rx, ry, ra) ← unpack4 bs
    if rx < ry then do
      let s1 ← (List.range' rx (ry - rx)).foldlM (fun t y => set_arc_led t rn y ra) s
      pure (s1, [], r1)
    else do
      let s1 ← (List.range' rx (64 - rx)).foldlM (fun t y => set_arc_led t rn y ra) s
      let s2 ← (List.range' 0 ry).foldlM (fun t x => set_arc_led t rn x ra) s1
      pure (s2, [], r1)
  else
    pure (s, [], r0)

/-- A device state fixture: active grid device with the given row and
column counts, variable-brightness threshold and LED buffer, empty
queues and default identity and brightness. -/
def mkState (rows cols thresh : Nat) (leds : List (List Nat)) : MonomeSerialDevice :=
  { active := true, is_monome := true, is_grid := true, rows := rows, cols := cols,
    encoders := 0, leds := leds, device_id := [], brightness := 15,
    vari_mono_thresh := thresh, arc_dirty := false, grid_dirty := true,
    grid_events := [], arc_events := [] }

/-- 1-by-1 grid fixture. -/
def gsOne : MonomeSerialDevice := mkState 1 1 0 [[0]]

/-- 8-by-8 grid fixture. -/
def gsGrid8 : MonomeSerialDevice := mkState 8 8 0 (List.replicate 8 (List.replicate 8 0))

/-- One-ring arc fixture (64 positions, threshold 0). -/
def gsArc : MonomeSerialDevice := mkState 1 1 0 [List.replicate 64 0]

/-- One-ring arc fixture with variable-brightness threshold 5. -/
def gsArcT : MonomeSerialDevice := mkState 1 1 5 [List.replicate 64 0]

/-- A device in the default-constructed shape: zero rows and columns,
empty LED buffer (what `MonomeSerialDevice()` actually produces). -/
def gsRowsZero : MonomeSerialDevice := mkState 0 0 0 []

/-- One-ring arc fixture whose 64 positions all start at intensity 9. -/
def gsArcFilled : MonomeSerialDevice := mkState 1 1 0 [List.replicate 64 9]

/-- Results that are not the `ZeroDivisionError` outcome. -/
def NZD {α : Type} (e : Except PyError α) : Prop := e ≠ .error .zeroDivision


lemma okBind {α β : Type} (a : α) (f : α → Except PyError β) : (Except.ok a >>= f) = f a := rfl

lemma errBind {α β : Type} (e : PyError) (f : α → Except PyError β) :
    ((Except.error e : Except PyError α) >>= f) = .error e := rfl

lemma mapOk {α β : Type} (f : α → β) (a : α) :
    (f <$> (Except.ok a : Except PyError α)) = .ok (f a) := rfl

lemma mapErr {α β : Type} (f : α → β) (e : PyError) :
    (f <$> (Except.error e : Except PyError α)) = .error e := rfl

lemma pureOk {α : Type} (a : α) : (pure a : Except PyError α) = .ok a := rfl

lemma getD_set_self {α : Type} :
    ∀ (l : List α) (i : Nat) (v d : α), i < l.length → (l.set i v).getD i d = v
  | [], _, _, _, h => absurd h (by simp)
  | _ :: _, 0, _, _, _ => rfl
  | _ :: l, i + 1, v, d, h => getD_set_self l i v d (by simpa using h)

lemma getD_set_ne {α : Type} :
    ∀ (l : List α) (i j : Nat) (v d : α), i ≠ j → (l.set i v).getD j d = l.getD j d
  | [], _, _, _, _, _ => by simp
  | _ :: _, 0, 0, _, _, h => absurd rfl h
  | _ :: _, 0, _ + 1, _, _, _ => rfl
  | _ :: _, _ + 1, 0, _, _, _ => rfl
  | _ :: l, i + 1, j + 1, v, d, h => getD_set_ne l i j v d (fun e => h (by rw [e]))

lemma ledWrite_ok (s : MonomeSerialDevice) (i j v : Nat)
    (hi : i < s.leds.length) (hj : j < (s.leds.getD i []).length) :
    ledWrite s i j v = .ok { s with leds := s.leds.set i ((s.leds.getD i []).set j v) } := by
  rw [ledWrite, store2D, if_pos hi, if_pos hj]

/-- Effect of a `for y in range(a, a + k): self.set_arc_led(n, y, lvl)`
loop: when ring `n` exists and the loop stays inside the ring, it
succeeds, touches no other ring, and sets exactly the positions in
`[a, a + k)` to `lvl`. -/
lemma arc_range_fold (n lvl : Nat) :
    ∀ (k a : Nat) (s : MonomeSerialDevice),
      n < s.leds.length → a + k ≤ (s.leds.getD n []).length →
      ∃ L, (List.range' a k).foldlM (fun t y => set_arc_led t n y lvl) s
          = .ok { s with leds := L } ∧
        L.length = s.leds.length ∧
        (∀ m, m ≠ n → L.getD m [] = s.leds.getD m []) ∧
        (∀ m, (L.getD m []).length = (s.leds.getD m []).length) ∧
        (∀ p, (L.getD n []).getD p 0 =
          if a ≤ p ∧ p < a + k then lvl else (s.leds.getD n []).getD p 0) := by
  intro k
  induction k with
  | zero =>
    intro a s hn _
    refine ⟨s.leds, rfl, rfl, fun m _ => rfl, fun m => rfl, fun p => ?_⟩
    rw [if_neg (by omega)]
  | succ k ih =>
    intro a s hn hb
    have ha : a < (s.leds.getD n []).length := by omega
    have hrow1 : (s.leds.set n ((s.leds.getD n []).set a lvl)).getD n []
        = (s.leds.getD n []).set a lvl := getD_set_self _ _ _ _ hn
    obtain ⟨L, hfold, hlen, hother, hrowlen, hread⟩ :=
      ih (a + 1) { s with leds := s.leds.set n ((s.leds.getD n []).set a lvl) }
        (by simpa using hn)
        (by show a + 1 + k ≤ ((s.leds.set n ((s.leds.getD n []).set a lvl)).getD n []).length
            rw [hrow1, List.length_set]; omega)
    simp only [hrow1] at hread
    refine ⟨L, ?_, ?_, ?_, ?_, ?_⟩
    · rw [List.range'_succ, List.foldlM_cons,
        show set_arc_led s n a lvl
            = .ok { s with leds := s.leds.set n ((s.leds.getD n []).set a lvl) } from
          ledWrite_ok s n a lvl hn ha,
        okBind]
      exact hfold
    · rw [hlen]; simp
    · intro m hm
      rw [hother m hm]
      show (s.leds.set n ((s.leds.getD n []).set a lvl)).getD m [] = s.leds.getD m []
      exact getD_set_ne _ _ _ _ _ hm.symm
    · intro m
      rw [hrowlen m]
      by_cases hmn : m = n
      · subst hmn
        show ((s.leds.set m ((s.leds.getD m []).set a lvl)).getD m []).length
            = (s.leds.getD m []).length
        rw [getD_set_self _ _ _ _ hn, List.length_set]
      · show ((s.leds.set n ((s.leds.getD n []).set a lvl)).getD m []).length
            = (s.leds.getD m []).length
        rw [getD_set_ne _ _ _ _ _ (fun e => hmn e.symm)]
    · intro p
      rw [hread p]
      by_cases hpa : p = a
      · subst hpa
        rw [if_neg (by omega), if_pos (by omega), getD_set_self _ _ _ _ ha]
      · rw [getD_set_ne _ _ _ _ _ (fun e => hpa e.symm)]
        by_cases h1 : a + 1 ≤ p ∧ p < a + 1 + k
        · rw [if_pos h1, if_pos (by omega)]
        · rw [if_neg h1, if_neg (by omega)]

/-- The dispatch arm for opcode 0x93 (arc led range): after the header
read and unpack succeed, the source runs the range loops of lines
387-394. -/
lemma process_0x93_eq (s : MonomeSerialDevice) (hrows : s.rows ≠ 0) (rn rx ry ra : Nat)
    (rest : List Nat) :
    process_serial s (0x93 :: rn :: rx :: ry :: ra :: rest) =
      if rx < ry then
        (List.foldlM (fun t y => set_arc_led t rn y ra) s (List.range' rx (ry - rx)) >>=
          fun s1 => .ok (s1, ([] : List Nat), rest))
      else
        (List.foldlM (fun t y => set_arc_led t rn y ra) s (List.range' rx (64 - rx)) >>=
          fun s1 => List.foldlM (fun t y => set_arc_led t rn y ra) s1 (List.range' 0 ry) >>=
            fun s2 => .ok (s2, ([] : List Nat), rest)) := by
  simp only [process_serial, pyIntDiv, if_neg hrows]
  rfl

/-- The dispatch arm for opcode 0x91 (arc led all): read two payload
bytes and call `set_all_arc_leds` (source lines 366-368). -/
lemma process_0x91_eq (s : MonomeSerialDevice) (hrows : s.rows ≠ 0) (rn ra : Nat)
    (rest : List Nat) :
    process_serial s (0x91 :: rn :: ra :: rest) =
      (set_all_arc_leds s rn ra >>= fun s1 => .ok (s1, ([] : List Nat), rest)) := by
  simp only [process_serial, pyIntDiv, if_neg hrows]
  rfl

/-- The dispatch arm for opcode 0x18 (led level set): read three
payload bytes and store the third through `set_grid_led` (source lines
256-258). -/
lemma process_0x18_eq (s : MonomeSerialDevice) (hrows : s.rows ≠ 0) (rx ry lvl : Nat)
    (rest : List Nat) :
    process_serial s (0x18 :: rx :: ry :: lvl :: rest) =
      (set_grid_led s rx ry lvl >>= fun s1 => .ok (s1, ([] : List Nat), rest)) := by
  simp only [process_serial, pyIntDiv, if_neg hrows]
  rfl

lemma nzd_ok {α : Type} (a : α) : NZD (.ok a) := by simp [NZD]

lemma nzd_pure {α : Type} (a : α) : NZD (pure a : Except PyError α) := nzd_ok a

lemma nzd_error {α : Type} (e : PyError) (h : e ≠ .zeroDivision) :
    NZD (.error e : Except PyError α) := by simp [NZD, h]

lemma nzd_bind {α β : Type} {e : Except PyError α} {f : α → Except PyError β}
    (h1 : NZD e) (h2 : ∀ a, NZD (f a)) : NZD (e >>= f) := by
  cases e with
  | error err =>
    rw [errBind]
    refine nzd_error _ (fun he => ?_)
    exact h1 (by rw [he])
  | ok a => rw [okBind]; exact h2 a

lemma nzd_map {α β : Type} {e : Except PyError α} (f : α → β) (h : NZD e) : NZD (f <$> e) := by
  cases e with
  | error err =>
    rw [mapErr]
    refine nzd_error _ (fun he => ?_)
    exact h (by rw [he])
  | ok a => rw [mapOk]; exact nzd_ok _

lemma nzd_ite {α : Type} (c : Prop) [Decidable c] {e1 e2 : Except PyError α}
    (h1 : NZD e1) (h2 : NZD e2) : NZD (if c then e1 else e2) := by
  split <;> assumption

lemma nzd_readByte (l : List Nat) : NZD (readByte l) := by
  cases l <;> simp [readByte, NZD]

lemma nzd_readBytes (n : Nat) (l : List Nat) : NZD (readBytes n l) := by
  induction n generalizing l with
  | zero => exact nzd_ok _
  | succ n ih =>
    cases l with
    | nil => exact nzd_error _ (by simp)
    | cons b r =>
      show NZD (match readBytes n r with
        | .ok (bs, rr) => .ok (b :: bs, rr)
        | .error e => .error e)
      cases hh : readBytes n r with
      | error e =>
        simp only [hh]
        refine nzd_error _ (fun he => ?_)
        exact ih r (by rw [hh, he])
      | ok pr => simp only [hh]; exact nzd_ok _

lemma nzd_unpack2 (l : List Nat) : NZD (unpack2 l) := by
  unfold unpack2; split
  · exact nzd_ok _
  · exact nzd_error _ (by simp)

lemma nzd_unpack3 (l : List Nat) : NZD (unpack3 l) := by
  unfold unpack3; split
  · exact nzd_ok _
  · exact nzd_error _ (by simp)

lemma nzd_unpack4 (l : List Nat) : NZD (unpack4 l) := by
  unfold unpack4; split
  · exact nzd_ok _
  · exact nzd_error _ (by simp)

lemma store2D_not_zd (ll : List (List Nat)) (i j v : Nat) :
    store2D ll i j v ≠ .error .zeroDivision := by
  rw [store2D]
  split
  · split <;> simp
  · simp

lemma nzd_ledWrite (s : MonomeSerialDevice) (i j v : Nat) : NZD (ledWrite s i j v) := by
  rw [ledWrite]
  cases h : store2D s.leds i j v with
  | ok L => simp only [h]; exact nzd_ok _
  | error e =>
    simp only [h]
    refine nzd_error _ (fun he => ?_)
    exact store2D_not_zd s.leds i j v (by rw [h, he])

lemma nzd_set_grid_led (s : MonomeSerialDevice) (x y l : Nat) : NZD (set_grid_led s x y l) :=
  nzd_ledWrite s y x l

lemma nzd_clear_grid_led (s : MonomeSerialDevice) (x y : Nat) : NZD (clear_grid_led s x y) :=
  nzd_ledWrite s y x 0

lemma nzd_set_arc_led (s : MonomeSerialDevice) (r l v : Nat) : NZD (set_arc_led s r l v) :=
  nzd_ledWrite s r l v

lemma nzd_foldlM {σ α : Type} (f : σ → α → Except PyError σ) (hf : ∀ t a, NZD (f t a)) :
    ∀ (l : List α) (t : σ), NZD (l.foldlM f t)
  | [], t => nzd_pure t
  | a :: l, t => by
    rw [List.foldlM_cons]
    exact nzd_bind (hf t a) (fun u => nzd_foldlM f hf l u)

lemma nzd_set_all_grid_leds (s : MonomeSerialDevice) (v : Nat) : NZD (set_all_grid_leds s v) :=
  nzd_foldlM _ (fun t y => nzd_foldlM _ (fun u x => nzd_ledWrite u y x v) _ t) _ s

lemma nzd_set_all_arc_leds (s : MonomeSerialDevice) (r v : Nat) : NZD (set_all_arc_leds s r v) :=
  nzd_foldlM _ (fun t n => nzd_ledWrite t r n 0) _ s

/-- C1: the claim states that construction with `rows > 0` and
`cols > 0` (e.g. via `as_grid`) allocates a rows-by-cols LED buffer of
zeroes supporting `set_grid_led` round trips.  The code instead calls
`set_all_grid_leds(0)` at source line 86, before the attribute
`self.leds` exists, and only afterwards assigns `self.leds = []`, so
every construction with positive dimensions raises and no buffer of
`rows * cols` cells is ever allocated. -/
theorem as_grid_positive_dims_raises (rows cols : Nat) (hr : 0 < rows) (hc : 0 < cols) :
    as_grid rows cols = Except.error PyError.indexError := by
  obtain ⟨r, rfl⟩ : ∃ r, rows = r + 1 := ⟨rows - 1, by omega⟩
  obtain ⟨c, rfl⟩ : ∃ c, cols = c + 1 := ⟨cols - 1, by omega⟩
  have hw : ledWrite (preInitState true true true (r + 1) (c + 1) 0) 0 0 0
      = .error .indexError := by
    rw [ledWrite, store2D]
    simp [preInitState]
  have houter : set_all_grid_leds (preInitState true true true (r + 1) (c + 1) 0) 0
      = .error .indexError := by
    simp only [set_all_grid_leds, preInitState, List.range_eq_range', List.range'_succ,
      List.foldlM_cons]
    simp only [preInitState] at hw
    simp only [hw, errBind]
  rw [as_grid, init]
  simp only [houter]

/-- C1 witness: the concrete construction the driving script performs
(a grid of 8 rows and 16 columns) raises instead of allocating a
zeroed buffer. -/
theorem as_grid_positive_dims_raises_witness :
    0 < 8 ∧ 0 < 16 ∧ as_grid 8 16 = Except.error PyError.indexError :=
  ⟨by decide, by decide, as_grid_positive_dims_raises 8 16 (by decide) (by decide)⟩

/-- C2 counterexample: `set_grid_led` does not mask the level to the
0x0F range — storing 200, directly or through opcode 0x18, places the
value 200, which exceeds 15, in the LED buffer. -/
theorem set_grid_led_stores_above_fifteen :
    set_grid_led gsOne 0 0 200 = .ok { gsOne with leds := [[200]] } ∧
    process_serial gsOne [0x18, 0, 0, 200] = .ok ({ gsOne with leds := [[200]] }, [], []) ∧
    ¬ (200 ≤ 15) := ⟨rfl, rfl, by decide⟩

/-- C2 amended: `set_grid_led(x, y, level)` stores `level` exactly as
passed, with no masking, at cell [y][x]; opcode 0x18 forwards its raw
payload byte to it, so a payload byte above 15 is stored above 15 and
the [0,15] buffer invariant does not hold on these paths. -/
theorem set_grid_led_exact_store (s : MonomeSerialDevice) (x y level : Nat) (rest : List Nat)
    (hrows : s.rows ≠ 0) (hy : y < s.leds.length) (hx : x < (s.leds.getD y []).length) :
    set_grid_led s x y level
        = .ok { s with leds := s.leds.set y ((s.leds.getD y []).set x level) } ∧
    ((s.leds.set y ((s.leds.getD y []).set x level)).getD y []).getD x 0 = level ∧
    process_serial s (0x18 :: x :: y :: level :: rest)
        = .ok ({ s with leds := s.leds.set y ((s.leds.getD y []).set x level) }, [], rest) := by
  have h1 := ledWrite_ok s y x level hy hx
  refine ⟨h1, ?_, ?_⟩
  · rw [getD_set_self _ _ _ _ hy, getD_set_self _ _ _ _ hx]
  · rw [process_0x18_eq s hrows x y level rest, set_grid_led, h1]
    rfl

/-- C2 witness: the exact-store theorem applied at cell (0,0) of the
1-by-1 fixture with level 200. -/
theorem set_grid_led_exact_store_witness :
    set_grid_led gsOne 0 0 200
        = .ok { gsOne with leds := gsOne.leds.set 0 ((gsOne.leds.getD 0 []).set 0 200) } ∧
    ((gsOne.leds.set 0 ((gsOne.leds.getD 0 []).set 0 200)).getD 0 []).getD 0 0 = 200 :=
  ⟨(set_grid_led_exact_store gsOne 0 0 200 [] (by decide) (by decide) (by decide)).1,
   (set_grid_led_exact_store gsOne 0 0 200 [] (by decide) (by decide) (by decide)).2.1⟩

/-- C3: the claim states the 0x1A arm reads exactly 2 header bytes then
32 packed bytes (0x1B/0x1C: 2 then 4) without failing.  The code reads
three bytes after each of these opcodes and unpacks them into two
names, raising `ValueError` (first, third and fourth conjuncts); with
only two bytes following the opcode it blocks waiting for a third
instead of completing the header (second conjunct). -/
theorem level_map_header_read_raises :
    process_serial gsGrid8 [0x1A, 0, 0, 0] = .error .valueError ∧
    process_serial gsGrid8 [0x1A, 0, 0] = .error .blocked ∧
    process_serial gsGrid8 [0x1B, 1, 2, 3] = .error .valueError ∧
    process_serial gsGrid8 [0x1C, 1, 2, 3] = .error .valueError :=
  ⟨rfl, rfl, rfl, rfl⟩

set_option maxRecDepth 40000 in
/-- C4: nibble-pair decoding behaves as claimed for the arc map command
0x92 — each packed byte 0xAB yields the high nibble 0xA at the even
position and the low nibble 0xB at the odd position (second conjunct,
threshold 0: bytes 0xAB give 10 and 11), with each nibble clamped to 0
when at or below `vari_mono_thresh` (third conjunct, threshold 5:
bytes 0x5A give 0 and 10) — but the grid map command 0x1A raises
`ValueError` at its header read and never decodes any packed byte
(first conjunct). -/
theorem nibble_decode_arc_ok_grid_raises :
    process_serial gsGrid8 ([0x1A, 0, 0] ++ List.replicate 32 0xAB) = .error .valueError ∧
    process_serial gsArc ([0x92, 0] ++ List.replicate 32 0xAB) =
      .ok ({ gsArc with leds := [(List.range 64).map (fun y => if y % 2 = 0 then 10 else 11)] },
        [], []) ∧
    process_serial gsArcT ([0x92, 0] ++ List.replicate 32 0x5A) =
      .ok ({ gsArcT with leds := [(List.range 64).map (fun y => if y % 2 = 0 then 0 else 10)] },
        [], []) := ⟨rfl, rfl, rfl⟩

/-- C5: opcode 0x93 (arc led range) with payload (ring, start, end,
level) sets every ring position in [start, end) to the level when
start < end, and wraps — setting [start, 64) and then [0, end) — when
start is at least end; all other positions of the ring and all other
rings are unchanged. -/
theorem arc_led_range_wraparound (s : MonomeSerialDevice) (rn rx ry ra : Nat) (rest : List Nat)
    (hrows : s.rows ≠ 0) (hn : rn < s.leds.length)
    (hlen : (s.leds.getD rn []).length = 64) (hx : rx < 64) (hy : ry ≤ 64) :
    ∃ L, process_serial s (0x93 :: rn :: rx :: ry :: ra :: rest)
        = .ok ({ s with leds := L }, [], rest) ∧
      L.length = s.leds.length ∧
      (∀ m, m ≠ rn → L.getD m [] = s.leds.getD m []) ∧
      (rx < ry → ∀ p, p < 64 →
        (L.getD rn []).getD p 0 =
          if rx ≤ p ∧ p < ry then ra else (s.leds.getD rn []).getD p 0) ∧
      (ry ≤ rx → ∀ p, p < 64 →
        (L.getD rn []).getD p 0 =
          if rx ≤ p ∨ p < ry then ra else (s.leds.getD rn []).getD p 0) := by
  rw [process_0x93_eq s hrows rn rx ry ra rest]
  by_cases hlt : rx < ry
  · obtain ⟨L, hfold, hL1, hL2, _hL3, hL4⟩ := arc_range_fold rn ra (ry - rx) rx s hn (by omega)
    refine ⟨L, ?_, hL1, hL2, fun _ p _hp => ?_, fun hc => absurd hlt (by omega)⟩
    · rw [if_pos hlt, hfold, okBind]
    · rw [hL4 p]
      have h64 : rx + (ry - rx) = ry := by omega
      rw [h64]
  · push_neg at hlt
    obtain ⟨L1, hfold1, h11, h12, h13, h14⟩ := arc_range_fold rn ra (64 - rx) rx s hn (by omega)
    obtain ⟨L2, hfold2, h21, h22, h23, h24⟩ :=
      arc_range_fold rn ra ry 0 { s with leds := L1 }
        (by simpa [h11] using hn)
        (by show 0 + ry ≤ (L1.getD rn []).length
            rw [h13 rn, hlen]; omega)
    refine ⟨L2, ?_, ?_, ?_, fun hc => absurd hc (by omega), fun _ p hp => ?_⟩
    · rw [if_neg (by omega : ¬ rx < ry), hfold1]
      simp only [okBind]
      rw [hfold2, okBind]
    · rw [h21]
      show L1.length = s.leds.length
      exact h11
    · intro m hm
      rw [h22 m hm]
      show L1.getD m [] = s.leds.getD m []
      exact h12 m hm
    · rw [h24 p]
      show (if 0 ≤ p ∧ p < 0 + ry then ra else (L1.getD rn []).getD p 0) = _
      rw [h14 p]
      by_cases hpy : p < ry
      · rw [if_pos (by omega), if_pos (by omega : rx ≤ p ∨ p < ry)]
      · rw [if_neg (by omega)]
        by_cases hpx : rx ≤ p
        · rw [if_pos (by omega), if_pos (by omega : rx ≤ p ∨ p < ry)]
        · rw [if_neg (by omega), if_neg (by omega : ¬ (rx ≤ p ∨ p < ry))]

set_option maxRecDepth 40000 in
/-- C5 witness: ring 0, start 60, end 4, level 5 on a one-ring device
whose 64 positions all start at 9: exactly positions 60,61,62,63 and
0,1,2,3 become 5 and the remaining 56 positions stay 9. -/
theorem arc_led_range_wraparound_witness :
    process_serial gsArcFilled [0x93, 0, 60, 4, 5]
      = .ok ({ gsArcFilled with
          leds := [List.replicate 4 5 ++ List.replicate 56 9 ++ List.replicate 4 5] },
        [], []) := by
  obtain ⟨L, h1, _h2, _h3, _h4, _h5⟩ :=
    arc_led_range_wraparound gsArcFilled 0 60 4 5 []
      (by decide) (by decide) (by decide) (by decide) (by decide)
  exact h1.trans (h1.symm.trans (by rfl))

/-- C6: writing the 32-byte identity "mydevice" followed by 24 zero
bytes via opcode 0x02 and then issuing opcode 0x01 makes the device
write back the byte 0x01 followed by exactly the 8 bytes of
"mydevice" and 24 zero bytes — a 32-byte id field. -/
theorem device_id_round_trip :
    process_serial gsGrid8
        (0x02 :: ([0x6D, 0x79, 0x64, 0x65, 0x76, 0x69, 0x63, 0x65] ++ List.replicate 24 0)
          ++ [0x01]) =
      .ok ({ gsGrid8 with device_id :=
          [0x6D, 0x79, 0x64, 0x65, 0x76, 0x69, 0x63, 0x65] ++ List.replicate 24 0 },
        [], [0x01]) ∧
    process_serial { gsGrid8 with device_id :=
        [0x6D, 0x79, 0x64, 0x65, 0x76, 0x69, 0x63, 0x65] ++ List.replicate 24 0 } [0x01] =
      .ok ({ gsGrid8 with device_id :=
          [0x6D, 0x79, 0x64, 0x65, 0x76, 0x69, 0x63, 0x65] ++ List.replicate 24 0 },
        0x01 :: ([0x6D, 0x79, 0x64, 0x65, 0x76, 0x69, 0x63, 0x65] ++ List.replicate 24 0),
        []) := ⟨rfl, rfl⟩

/-- C7: an opcode byte with no `case` arm makes `process_serial`
consume nothing beyond the opcode, write nothing, and leave the whole
device state (identity, configuration, LED buffer and both event
queues) unchanged, returning normally.  The `rows` precondition is
needed because the quadrant division at the top of `process_serial`
runs before the dispatch for every opcode (see C10). -/
theorem unknown_opcode_ignored (s : MonomeSerialDevice) (b : Nat) (rest : List Nat)
    (hrows : s.rows ≠ 0) (hb : b ∉ knownOpcodes) :
    process_serial s (b :: rest) = .ok (s, [], rest) := by
  have hne : ∀ k, k ∈ knownOpcodes → ¬ b = k := fun k hk e => hb (by rw [e]; exact hk)
  simp only [process_serial, pyIntDiv, if_neg hrows, okBind, readByte]
  rw [if_neg (hne 0x00 (by decide)), if_neg (hne 0x01 (by decide)),
    if_neg (hne 0x02 (by decide)), if_neg (hne 0x03 (by decide)),
    if_neg (hne 0x04 (by decide)), if_neg (hne 0x05 (by decide)),
    if_neg (hne 0x06 (by decide)), if_neg (hne 0x08 (by decide)),
    if_neg (hne 0x0F (by decide)), if_neg (hne 0x10 (by decide)),
    if_neg (hne 0x11 (by decide)), if_neg (hne 0x12 (by decide)),
    if_neg (hne 0x13 (by decide)), if_neg (hne 0x14 (by decide)),
    if_neg (hne 0x15 (by decide)), if_neg (hne 0x16 (by decide)),
    if_neg (hne 0x17 (by decide)), if_neg (hne 0x18 (by decide)),
    if_neg (hne 0x19 (by decide)), if_neg (hne 0x1A (by decide)),
    if_neg (hne 0x1B (by decide)), if_neg (hne 0x1C (by decide)),
    if_neg (hne 0x20 (by decide)), if_neg (hne 0x21 (by decide)),
    if_neg (hne 0x50 (by decide)), if_neg (hne 0x51 (by decide)),
    if_neg (hne 0x52 (by decide)), if_neg (hne 0x80 (by decide)),
    if_neg (hne 0x81 (by decide)), if_neg (hne 0x90 (by decide)),
    if_neg (hne 0x91 (by decide)), if_neg (hne 0x92 (by decide)),
    if_neg (hne 0x93 (by decide))]
  rfl

/-- C7 witness: the commented-out opcode 0x07 (the scan command with no
arm) followed by one more byte: the device returns unchanged, emits
nothing, and leaves the extra byte unread. -/
theorem unknown_opcode_ignored_witness :
    0x07 ∉ knownOpcodes ∧ process_serial gsGrid8 [0x07, 0xAB] = .ok (gsGrid8, [], [0xAB]) :=
  ⟨by decide, unknown_opcode_ignored gsGrid8 0x07 [0xAB] (by decide) (by decide)⟩

/-- C8: both queues are strict FIFO — the `add_*` operations append to
the back of their queue (first three conjuncts), a read on an empty
queue returns `none` without changing the state (fourth and sixth
conjuncts), a read on a non-empty queue removes and returns the front
entry (fifth and seventh conjuncts), and, concretely, enqueueing
`GridEvent(2,3,true)` then `GridEvent(2,3,false)` yields exactly those
two events in that order from two reads and `none` from a third (last
conjunct). -/
theorem event_queue_fifo :
    (∀ (s : MonomeSerialDevice) (x y : Nat) (p : Bool),
      (add_grid_event s x y p).grid_events = s.grid_events ++ [⟨x, y, p⟩]) ∧
    (∀ (s : MonomeSerialDevice) (i d : Nat),
      (add_arc_turn_event s i d).arc_events = s.arc_events ++ [.turn i d]) ∧
    (∀ (s : MonomeSerialDevice) (i : Nat) (p : Bool),
      (add_arc_press_event s i p).arc_events = s.arc_events ++ [.press i p]) ∧
    (∀ s : MonomeSerialDevice, s.grid_events = [] → read_grid_event s = (none, s)) ∧
    (∀ (s : MonomeSerialDevice) (e : MonomeGridEvent) (rest : List MonomeGridEvent),
      s.grid_events = e :: rest → read_grid_event s = (some e, { s with grid_events := rest })) ∧
    (∀ s : MonomeSerialDevice, s.arc_events = [] → read_arc_event s = (none, s)) ∧
    (∀ (s : MonomeSerialDevice) (e : MonomeArcEvent) (rest : List MonomeArcEvent),
      s.arc_events = e :: rest → read_arc_event s = (some e, { s with arc_events := rest })) ∧
    (read_grid_event (add_grid_event (add_grid_event gsGrid8 2 3 true) 2 3 false)
        = (some ⟨2, 3, true⟩, { gsGrid8 with grid_events := [⟨2, 3, false⟩] }) ∧
      read_grid_event { gsGrid8 with grid_events := [⟨2, 3, false⟩] }
        = (some ⟨2, 3, false⟩, gsGrid8) ∧
      read_grid_event gsGrid8 = (none, gsGrid8)) := by
  refine ⟨fun s x y p => rfl, fun s i d => rfl, fun s i p => rfl,
    fun s h => ?_, fun s e rest h => ?_, fun s h => ?_, fun s e rest h => ?_,
    rfl, rfl, rfl⟩
  · simp [read_grid_event, h]
  · simp [read_grid_event, h]
  · simp [read_arc_event, h]
  · simp [read_arc_event, h]

/-- C8 witness: the append equation at a concrete state and event, and
the empty-read equations at the empty-queued fixture. -/
theorem event_queue_fifo_witness :
    (add_grid_event gsGrid8 2 3 true).grid_events = [⟨2, 3, true⟩] ∧
    read_grid_event gsGrid8 = (none, gsGrid8) ∧
    read_arc_event gsGrid8 = (none, gsGrid8) := by
  refine ⟨?_, ?_, ?_⟩
  · rw [event_queue_fifo.1 gsGrid8 2 3 true]
    rfl
  · exact event_queue_fifo.2.2.2.1 gsGrid8 rfl
  · exact event_queue_fifo.2.2.2.2.2.1 gsGrid8 rfl

/-- C9: `set_all_arc_leds(ring, value)` writes 0 to all 64 positions
of the addressed ring whatever `value` is passed (the parameter is
never read), leaves other rings untouched, and opcode 0x91 (arc led
all) therefore zeroes the addressed ring whatever level byte its
payload carries. -/
theorem arc_led_all_zeroes_ring (s : MonomeSerialDevice) (ring value : Nat) (rest : List Nat)
    (hrows : s.rows ≠ 0) (hr : ring < s.leds.length)
    (hlen : 64 ≤ (s.leds.getD ring []).length) :
    (∃ L, set_all_arc_leds s ring value = .ok { s with leds := L } ∧
      (∀ p, p < 64 → (L.getD ring []).getD p 0 = 0) ∧
      (∀ m, m ≠ ring → L.getD m [] = s.leds.getD m []) ∧
      (∀ p, 64 ≤ p → (L.getD ring []).getD p 0 = (s.leds.getD ring []).getD p 0)) ∧
    (∃ L, process_serial s (0x91 :: ring :: value :: rest)
        = .ok ({ s with leds := L }, [], rest) ∧
      ∀ p, p < 64 → (L.getD ring []).getD p 0 = 0) := by
  obtain ⟨L, hfold, _h1, h2, _h3, h4⟩ := arc_range_fold ring 0 64 0 s hr (by omega)
  have hform : set_all_arc_leds s ring value = .ok { s with leds := L } := by
    rw [set_all_arc_leds, List.range_eq_range']
    exact hfold
  refine ⟨⟨L, hform, ?_, h2, ?_⟩, ⟨L, ?_, ?_⟩⟩
  · intro p hp
    rw [h4 p, if_pos (by omega)]
  · intro p hp
    rw [h4 p, if_neg (by omega)]
  · rw [process_0x91_eq s hrows ring value rest, hform, okBind]
  · intro p hp
    rw [h4 p, if_pos (by omega)]

set_option maxRecDepth 40000 in
/-- C9 witness: opcode 0x91 on a ring whose 64 positions all hold 9,
with level byte 7: every position becomes 0, not 7. -/
theorem arc_led_all_zeroes_ring_witness :
    process_serial gsArcFilled [0x91, 0, 7]
      = .ok ({ gsArcFilled with leds := [List.replicate 64 0] }, [], []) := by
  obtain ⟨_hset, L, h1, _h2⟩ :=
    arc_led_all_zeroes_ring gsArcFilled 0 7 [] (by decide) (by decide) (by decide)
  exact h1.trans (h1.symm.trans (by rfl))

set_option maxHeartbeats 2000000 in
/-- C10: `process_serial` evaluates `int(self._cols / self._rows)`
before reading the opcode, so with `rows = 0` (the default
construction) every invocation fails with `ZeroDivisionError`,
whatever the pending input; with `rows` nonzero that error can never
occur, whatever the input and state. -/
theorem process_serial_division_by_rows (s : MonomeSerialDevice) (input : List Nat) :
    (s.rows = 0 → process_serial s input = .error .zeroDivision) ∧
    (s.rows ≠ 0 → process_serial s input ≠ .error .zeroDivision) := by
  constructor
  · intro h
    simp only [process_serial, pyIntDiv, if_pos h, errBind]
  · intro hrows
    show NZD (process_serial s input)
    simp only [process_serial, pyIntDiv, if_neg hrows, okBind]
    refine nzd_bind (nzd_readByte input) ?_
    rintro ⟨b, r0⟩
    repeat' first
      | apply nzd_ite
      | apply nzd_bind
      | apply nzd_map
      | apply nzd_foldlM
      | exact nzd_readByte _
      | exact nzd_readBytes _ _
      | exact nzd_unpack2 _
      | exact nzd_unpack3 _
      | exact nzd_unpack4 _
      | exact nzd_set_grid_led _ _ _ _
      | exact nzd_clear_grid_led _ _ _
      | exact nzd_set_arc_led _ _ _ _
      | exact nzd_set_all_grid_leds _ _
      | exact nzd_set_all_arc_leds _ _
      | exact nzd_ok _
      | exact nzd_pure _
      | rintro ⟨x, y, z, w⟩

/-- C10 witness: the zero-rows fixture fails with the division error on
the query opcode; the 8-by-8 fixture can never produce it. -/
theorem process_serial_division_by_rows_witness :
    process_serial gsRowsZero [0x00] = .error .zeroDivision ∧
    process_serial gsGrid8 [0x00] ≠ .error .zeroDivision :=
  ⟨(process_serial_division_by_rows gsRowsZero [0x00]).1 (by decide),
   (process_serial_division_by_rows gsGrid8 [0x00]).2 (by decide)⟩
